import Mathlib

/-!
Shallow embedding of the `DownscalingGAN` trainer from
`src/tier_3/post_processing/precipitation_downscaling_gan.ipynb`.

The trainer (`DownscalingGAN`, a Keras `Model` subclass) alternates one
discriminator update and one generator update per `train_step` call,
selected by the parity of a step counter, and tracks running mean losses
with two `keras.metrics.Mean` objects.

Embedding conventions:
* Scalars (loss values, parameter blobs, tensor entries) are rationals, so
  every definition is executable and decidable on concrete inputs.
* A network's trainable weights are a single `ℚ` blob; the network
  architectures, the compiled loss function (`BinaryCrossentropy(from_logits
  =True)` in the notebook), the two Adam optimizers and automatic
  differentiation are opaque functions collected in a `GanEnv`
  (the notebook treats them as framework-supplied black boxes).
* `tf.random.normal` is modelled by reading an explicit stream
  `rng : ℕ → ℚ` of standard-normal draws at a position `rngPos` carried in
  the trainer state; each call consumes `B * 4*4*8` values.
* A Keras `Mean` metric is its pair (total, count); `update_state v` adds
  `v` to the total and `1` to the count, `result()` is
  `divide_no_nan total count` (which yields `0` when `count = 0`).
* The dict returned by `train_step` is an association list
  `List (String × ℚ)` so that the literal key strings of the source are
  part of the model.
-/

/-- A batch of noise tensors: `B` samples, each a `d₁ × d₂ × d₃` nested list. -/
abbrev NoiseT := List (List (List (List ℚ)))

/-- Total number of scalar entries in one noise sample of the given shape. -/
def noiseSize : ℕ × ℕ × ℕ → ℕ
  | (d1, d2, d3) => d1 * d2 * d3

/-- Embedding of `tf.random.normal(shape=(batch_size,) + self.noise_shape)`:
reads `b * noiseSize shape` fresh values from the stream `rng` starting at
position `pos`, arranged as a `b × d₁ × d₂ × d₃` nested list. -/
def tf_random_normal (rng : ℕ → ℚ) (pos : ℕ) (b : ℕ) : ℕ × ℕ × ℕ → NoiseT
  | (d1, d2, d3) =>
    (List.range b).map fun n =>
      (List.range d1).map fun i =>
        (List.range d2).map fun j =>
          (List.range d3).map fun k =>
            rng (pos + ((n * d1 + i) * d2 + j) * d3 + k)

/-- One training batch `(samples_lr, samples_hr)`: aligned lists of
low-resolution and high-resolution samples (each sample abstracted to `ℚ`). -/
structure Batch where
  samples_lr : List ℚ
  samples_hr : List ℚ
deriving DecidableEq

/-- The framework-supplied collaborators of the trainer: the generator and
discriminator forward passes (as functions of their weight blob), the
compiled binary cross-entropy loss `loss_fn(labels, predictions)`, the two
optimizers (`apply_gradients` composed over one step) and the gradient
of a scalar loss with respect to a weight blob (`tape.gradient`). -/
structure GanEnv where
  generator : ℚ → List ℚ → NoiseT → List ℚ
  discriminator : ℚ → List ℚ → List ℚ → List ℚ
  loss_fn : List ℚ → List ℚ → ℚ
  d_grad : ℚ → ℚ → ℚ
  g_grad : ℚ → ℚ → ℚ
  d_apply : ℚ → ℚ → ℚ
  g_apply : ℚ → ℚ → ℚ

/-- Mutable state of a `DownscalingGAN` instance: the two networks' weights,
the two `keras.metrics.Mean` loss trackers as (total, count) pairs, the
`step_number` variable, the `noise_shape` attribute, and the position in
the random stream. -/
structure GanState where
  discParams : ℚ
  genParams : ℚ
  genTotal : ℚ
  genCount : ℕ
  discTotal : ℚ
  discCount : ℕ
  step_number : ℕ
  noise_shape : ℕ × ℕ × ℕ
  rngPos : ℕ
deriving DecidableEq

/-- Constructor `DownscalingGAN.__init__(discriminator, generator, noise_shape=(4,4,8))`:
fresh `Mean` trackers (total 0, count 0) and `step_number = tf.Variable(0)`. -/
def DownscalingGAN_init (discParams genParams : ℚ) : GanState :=
  { discParams := discParams
    genParams := genParams
    genTotal := 0
    genCount := 0
    discTotal := 0
    discCount := 0
    step_number := 0
    noise_shape := (4, 4, 8)
    rngPos := 0 }

/-- Reported value `keras.metrics.Mean.result()`: `divide_no_nan(total, count)`,
which is `0` when no value has been recorded yet. -/
def meanResult (total : ℚ) (count : ℕ) : ℚ :=
  if count = 0 then 0 else total / count

/-- Combined batch `tf.concat([samples_gen, samples_hr], axis=0)` in `train_discriminator`. -/
def combined_samples_hr (samples_gen samples_hr : List ℚ) : List ℚ :=
  samples_gen ++ samples_hr

/-- Duplicated conditioning `tf.concat([samples_lr, samples_lr], axis=0)` in `train_discriminator`. -/
def combined_samples_lr (samples_lr : List ℚ) : List ℚ :=
  samples_lr ++ samples_lr

/-- Labels `tf.concat([tf.ones((batch_size, 1)), tf.zeros((batch_size, 1))], axis=0)`:
label 1 for the generated half, label 0 for the real half. -/
def disc_labels (batch_size : ℕ) : List ℚ :=
  List.replicate batch_size 1 ++ List.replicate batch_size 0

/-- Misleading labels `tf.zeros((batch_size, 1))`: the "all real images" labels of
`train_generator`. -/
def misleading_labels (batch_size : ℕ) : List ℚ :=
  List.replicate batch_size 0

/-- The discriminator loss `d_loss` computed inside `train_discriminator`:
binary cross-entropy between the labels and the discriminator predictions on
the combined (fake ++ real) batch with duplicated low-resolution conditioning. -/
def d_loss_of (env : GanEnv) (noise : NoiseT) (s : GanState) (data : Batch) : ℚ :=
  let batch_size := data.samples_hr.length
  let samples_gen := env.generator s.genParams data.samples_lr noise
  env.loss_fn (disc_labels batch_size)
    (env.discriminator s.discParams
      (combined_samples_lr data.samples_lr)
      (combined_samples_hr samples_gen data.samples_hr))

/-- The generator loss `g_loss` computed inside `train_generator`:
binary cross-entropy between the misleading (all-zero) labels and the
discriminator predictions on the (low-res, freshly generated fake) pairs. -/
def g_loss_of (env : GanEnv) (noise : NoiseT) (s : GanState) (data : Batch) : ℚ :=
  let samples_gen := env.generator s.genParams data.samples_lr noise
  env.loss_fn (misleading_labels data.samples_hr.length)
    (env.discriminator s.discParams data.samples_lr samples_gen)

/-- The nested `train_discriminator()` branch: computes `d_loss`, applies one
`d_optimizer` step to the discriminator weights only, and records the loss in
the discriminator `Mean` tracker. -/
def train_discriminator (env : GanEnv) (noise : NoiseT) (s : GanState) (data : Batch) :
    GanState :=
  let d_loss := d_loss_of env noise s data
  { s with
    discParams := env.d_apply (env.d_grad d_loss s.discParams) s.discParams
    discTotal := s.discTotal + d_loss
    discCount := s.discCount + 1 }

/-- The nested `train_generator()` branch: computes `g_loss`, applies one
`g_optimizer` step to the generator weights only (the discriminator is
invoked in the forward pass but its weights are not updated), and records
the loss in the generator `Mean` tracker. -/
def train_generator (env : GanEnv) (noise : NoiseT) (s : GanState) (data : Batch) :
    GanState :=
  let g_loss := g_loss_of env noise s data
  { s with
    genParams := env.g_apply (env.g_grad g_loss s.genParams) s.genParams
    genTotal := s.genTotal + g_loss
    genCount := s.genCount + 1 }

/-- Method `DownscalingGAN.train_step(data)`: unpack the batch, draw a fresh noise
tensor of shape `(batch_size,) + noise_shape` (before and independently of
the branch choice), run `train_discriminator` when `step_number % 2 == 0`
and `train_generator` otherwise (`tf.cond`), increment `step_number`, and
return the dict `{"g_loss": ..., "d_loss": ...}` of the two trackers'
current `result()` values. -/
def trainStep (env : GanEnv) (rng : ℕ → ℚ) (s : GanState) (data : Batch) :
    GanState × List (String × ℚ) :=
  let batch_size := data.samples_hr.length
  let noise := tf_random_normal rng s.rngPos batch_size s.noise_shape
  let s1 :=
    if s.step_number % 2 = 0 then train_discriminator env noise s data
    else train_generator env noise s data
  let s2 := { s1 with
    step_number := s1.step_number + 1
    rngPos := s.rngPos + batch_size * noiseSize s.noise_shape }
  (s2, [("g_loss", meanResult s2.genTotal s2.genCount),
        ("d_loss", meanResult s2.discTotal s2.discCount)])

/-- A sequence of `n` `train_step` calls driven by an external stream of
batches (the `fit` driver supplies one batch per call). -/
def runSteps (env : GanEnv) (rng : ℕ → ℚ) (s0 : GanState) (batches : ℕ → Batch) :
    ℕ → GanState
  | 0 => s0
  | n + 1 => (trainStep env rng (runSteps env rng s0 batches n) (batches n)).1

/-- Whether call `k` (0-indexed) of the run executes the discriminator branch:
the `tf.cond` predicate `self.step_number % 2 == 0` evaluated at that call. -/
def discBranchAt (env : GanEnv) (rng : ℕ → ℚ) (s0 : GanState) (batches : ℕ → Batch)
    (k : ℕ) : Bool :=
  decide ((runSteps env rng s0 batches k).step_number % 2 = 0)

/-- The loss value recorded by call number `k` of the run (into whichever
tracker the branch of that call updates). -/
def callLoss (env : GanEnv) (rng : ℕ → ℚ) (s : GanState) (data : Batch) : ℚ :=
  let noise := tf_random_normal rng s.rngPos data.samples_hr.length s.noise_shape
  if s.step_number % 2 = 0 then d_loss_of env noise s data
  else g_loss_of env noise s data

/-- The list of loss values recorded into the generator `Mean` tracker during
the first `n` calls of the run. -/
def genRecorded (env : GanEnv) (rng : ℕ → ℚ) (s0 : GanState) (batches : ℕ → Batch) :
    ℕ → List ℚ
  | 0 => []
  | n + 1 =>
    genRecorded env rng s0 batches n ++
      (if (runSteps env rng s0 batches n).step_number % 2 = 0 then []
       else [callLoss env rng (runSteps env rng s0 batches n) (batches n)])

/-- The list of loss values recorded into the discriminator `Mean` tracker
during the first `n` calls of the run. -/
def discRecorded (env : GanEnv) (rng : ℕ → ℚ) (s0 : GanState) (batches : ℕ → Batch) :
    ℕ → List ℚ
  | 0 => []
  | n + 1 =>
    discRecorded env rng s0 batches n ++
      (if (runSteps env rng s0 batches n).step_number % 2 = 0 then
        [callLoss env rng (runSteps env rng s0 batches n) (batches n)]
       else [])

/-- A small concrete environment (stub networks, additive optimizer and
gradient stubs) used to exercise the trainer on closed inputs. -/
def env0 : GanEnv :=
  { generator := fun _ lr _ => lr
    discriminator := fun _ _ hr => hr
    loss_fn := fun labels preds => labels.sum + preds.sum
    d_grad := fun l p => l + p
    g_grad := fun l p => l + p
    d_apply := fun g p => p + g
    g_apply := fun g p => p + g }

/-- A concrete constant random stream for closed evaluations. -/
def rng0 : ℕ → ℚ := fun _ => 0

/-- A concrete batch of size 1. -/
def batch0 : Batch := { samples_lr := [1], samples_hr := [2] }

/-- A concrete batch stream for closed evaluations. -/
def batches0 : ℕ → Batch := fun _ => batch0

/-! ### Basic per-call lemmas -/

theorem trainStep_step_number (env : GanEnv) (rng : ℕ → ℚ) (s : GanState) (data : Batch) :
    (trainStep env rng s data).1.step_number = s.step_number + 1 := by
  simp only [trainStep]
  split <;> rfl

theorem trainStep_rngPos (env : GanEnv) (rng : ℕ → ℚ) (s : GanState) (data : Batch) :
    (trainStep env rng s data).1.rngPos
      = s.rngPos + data.samples_hr.length * noiseSize s.noise_shape := by
  simp only [trainStep]

theorem trainStep_noise_shape (env : GanEnv) (rng : ℕ → ℚ) (s : GanState) (data : Batch) :
    (trainStep env rng s data).1.noise_shape = s.noise_shape := by
  simp only [trainStep]
  split <;> rfl

theorem trainStep_fst_even (env : GanEnv) (rng : ℕ → ℚ) (s : GanState) (data : Batch)
    (h : s.step_number % 2 = 0) :
    (trainStep env rng s data).1
      = { train_discriminator env
            (tf_random_normal rng s.rngPos data.samples_hr.length s.noise_shape) s data with
          step_number := s.step_number + 1
          rngPos := s.rngPos + data.samples_hr.length * noiseSize s.noise_shape } := by
  simp only [trainStep, if_pos h]
  rfl

theorem trainStep_fst_odd (env : GanEnv) (rng : ℕ → ℚ) (s : GanState) (data : Batch)
    (h : ¬ s.step_number % 2 = 0) :
    (trainStep env rng s data).1
      = { train_generator env
            (tf_random_normal rng s.rngPos data.samples_hr.length s.noise_shape) s data with
          step_number := s.step_number + 1
          rngPos := s.rngPos + data.samples_hr.length * noiseSize s.noise_shape } := by
  simp only [trainStep, if_neg h]
  rfl

theorem trainStep_snd (env : GanEnv) (rng : ℕ → ℚ) (s : GanState) (data : Batch) :
    (trainStep env rng s data).2
      = [("g_loss", meanResult (trainStep env rng s data).1.genTotal
            (trainStep env rng s data).1.genCount),
         ("d_loss", meanResult (trainStep env rng s data).1.discTotal
            (trainStep env rng s data).1.discCount)] := by
  simp only [trainStep]

theorem runSteps_step_number (env : GanEnv) (rng : ℕ → ℚ) (s0 : GanState)
    (batches : ℕ → Batch) (n : ℕ) :
    (runSteps env rng s0 batches n).step_number = s0.step_number + n := by
  induction n with
  | zero => rfl
  | succ n ih =>
    show (trainStep env rng (runSteps env rng s0 batches n) (batches n)).1.step_number = _
    rw [trainStep_step_number, ih]
    omega

theorem callLoss_even (env : GanEnv) (rng : ℕ → ℚ) (s : GanState) (data : Batch)
    (h : s.step_number % 2 = 0) :
    callLoss env rng s data
      = d_loss_of env (tf_random_normal rng s.rngPos data.samples_hr.length s.noise_shape)
          s data := by
  simp [callLoss, h]

theorem callLoss_odd (env : GanEnv) (rng : ℕ → ℚ) (s : GanState) (data : Batch)
    (h : ¬ s.step_number % 2 = 0) :
    callLoss env rng s data
      = g_loss_of env (tf_random_normal rng s.rngPos data.samples_hr.length s.noise_shape)
          s data := by
  simp [callLoss, h]

theorem trainStep_even_fields (env : GanEnv) (rng : ℕ → ℚ) (s : GanState) (data : Batch)
    (h : s.step_number % 2 = 0) :
    (trainStep env rng s data).1.genParams = s.genParams
    ∧ (trainStep env rng s data).1.genTotal = s.genTotal
    ∧ (trainStep env rng s data).1.genCount = s.genCount
    ∧ (trainStep env rng s data).1.discTotal = s.discTotal + callLoss env rng s data
    ∧ (trainStep env rng s data).1.discCount = s.discCount + 1
    ∧ (trainStep env rng s data).1.discParams
        = env.d_apply (env.d_grad (callLoss env rng s data) s.discParams) s.discParams := by
  rw [trainStep_fst_even env rng s data h, callLoss_even env rng s data h]
  simp [train_discriminator]

theorem trainStep_odd_fields (env : GanEnv) (rng : ℕ → ℚ) (s : GanState) (data : Batch)
    (h : ¬ s.step_number % 2 = 0) :
    (trainStep env rng s data).1.discParams = s.discParams
    ∧ (trainStep env rng s data).1.discTotal = s.discTotal
    ∧ (trainStep env rng s data).1.discCount = s.discCount
    ∧ (trainStep env rng s data).1.genTotal = s.genTotal + callLoss env rng s data
    ∧ (trainStep env rng s data).1.genCount = s.genCount + 1
    ∧ (trainStep env rng s data).1.genParams
        = env.g_apply (env.g_grad (callLoss env rng s data) s.genParams) s.genParams := by
  rw [trainStep_fst_odd env rng s data h, callLoss_odd env rng s data h]
  simp [train_generator]

theorem length_filter_even_range (N : ℕ) :
    ((List.range N).filter (fun k => decide (k % 2 = 0))).length = (N + 1) / 2 := by
  induction N with
  | zero => rfl
  | succ n ih =>
    rw [List.range_succ, List.filter_append, List.length_append, ih]
    by_cases h : n % 2 = 0 <;> simp [h] <;> omega

theorem length_filter_odd_range (N : ℕ) :
    ((List.range N).filter (fun k => !decide (k % 2 = 0))).length = N / 2 := by
  induction N with
  | zero => rfl
  | succ n ih =>
    rw [List.range_succ, List.filter_append, List.length_append, ih]
    by_cases h : n % 2 = 0 <;> simp [h] <;> omega

theorem discBranchAt_init (env : GanEnv) (rng : ℕ → ℚ) (batches : ℕ → Batch)
    (dp gp : ℚ) (k : ℕ) :
    discBranchAt env rng (DownscalingGAN_init dp gp) batches k = decide (k % 2 = 0) := by
  simp [discBranchAt, runSteps_step_number, DownscalingGAN_init]

theorem runSteps_genTracker (env : GanEnv) (rng : ℕ → ℚ) (batches : ℕ → Batch)
    (dp gp : ℚ) (n : ℕ) :
    (runSteps env rng (DownscalingGAN_init dp gp) batches n).genTotal
      = (genRecorded env rng (DownscalingGAN_init dp gp) batches n).sum
    ∧ (runSteps env rng (DownscalingGAN_init dp gp) batches n).genCount
      = (genRecorded env rng (DownscalingGAN_init dp gp) batches n).length := by
  induction n with
  | zero => exact ⟨rfl, rfl⟩
  | succ n ih =>
    by_cases h : (runSteps env rng (DownscalingGAN_init dp gp) batches n).step_number % 2 = 0
    · constructor
      · show (trainStep env rng (runSteps env rng (DownscalingGAN_init dp gp) batches n)
            (batches n)).1.genTotal = _
        rw [(trainStep_even_fields env rng _ _ h).2.1, ih.1]
        simp [genRecorded, h]
      · show (trainStep env rng (runSteps env rng (DownscalingGAN_init dp gp) batches n)
            (batches n)).1.genCount = _
        rw [(trainStep_even_fields env rng _ _ h).2.2.1, ih.2]
        simp [genRecorded, h]
    · constructor
      · show (trainStep env rng (runSteps env rng (DownscalingGAN_init dp gp) batches n)
            (batches n)).1.genTotal = _
        rw [(trainStep_odd_fields env rng _ _ h).2.2.2.1, ih.1]
        simp [genRecorded, h]
      · show (trainStep env rng (runSteps env rng (DownscalingGAN_init dp gp) batches n)
            (batches n)).1.genCount = _
        rw [(trainStep_odd_fields env rng _ _ h).2.2.2.2.1, ih.2]
        simp [genRecorded, h]

theorem runSteps_discTracker (env : GanEnv) (rng : ℕ → ℚ) (batches : ℕ → Batch)
    (dp gp : ℚ) (n : ℕ) :
    (runSteps env rng (DownscalingGAN_init dp gp) batches n).discTotal
      = (discRecorded env rng (DownscalingGAN_init dp gp) batches n).sum
    ∧ (runSteps env rng (DownscalingGAN_init dp gp) batches n).discCount
      = (discRecorded env rng (DownscalingGAN_init dp gp) batches n).length := by
  induction n with
  | zero => exact ⟨rfl, rfl⟩
  | succ n ih =>
    by_cases h : (runSteps env rng (DownscalingGAN_init dp gp) batches n).step_number % 2 = 0
    · constructor
      · show (trainStep env rng (runSteps env rng (DownscalingGAN_init dp gp) batches n)
            (batches n)).1.discTotal = _
        rw [(trainStep_even_fields env rng _ _ h).2.2.2.1, ih.1]
        simp [discRecorded, h]
      · show (trainStep env rng (runSteps env rng (DownscalingGAN_init dp gp) batches n)
            (batches n)).1.discCount = _
        rw [(trainStep_even_fields env rng _ _ h).2.2.2.2.1, ih.2]
        simp [discRecorded, h]
    · constructor
      · show (trainStep env rng (runSteps env rng (DownscalingGAN_init dp gp) batches n)
            (batches n)).1.discTotal = _
        rw [(trainStep_odd_fields env rng _ _ h).2.1, ih.1]
        simp [discRecorded, h]
      · show (trainStep env rng (runSteps env rng (DownscalingGAN_init dp gp) batches n)
            (batches n)).1.discCount = _
        rw [(trainStep_odd_fields env rng _ _ h).2.2.1, ih.2]
        simp [discRecorded, h]

/-! ### Claim theorems -/

/-- C1: starting from a freshly constructed trainer (step counter 0), the
executed branches of `train_step` strictly alternate: call `k` runs the
discriminator branch iff `k` is even, exactly `⌈N/2⌉` of the first `N` calls
run the discriminator branch and `⌊N/2⌋` the generator branch, no two
consecutive calls run the same branch, and the first call runs the
discriminator branch. -/
theorem C1_branch_alternation (env : GanEnv) (rng : ℕ → ℚ) (batches : ℕ → Batch)
    (dp gp : ℚ) (N : ℕ) :
    (∀ k, k < N →
      (discBranchAt env rng (DownscalingGAN_init dp gp) batches k = true ↔ k % 2 = 0))
    ∧ ((List.range N).filter
        (discBranchAt env rng (DownscalingGAN_init dp gp) batches)).length = (N + 1) / 2
    ∧ ((List.range N).filter
        (fun k => !discBranchAt env rng (DownscalingGAN_init dp gp) batches k)).length
        = N / 2
    ∧ (∀ k, k + 1 < N →
        discBranchAt env rng (DownscalingGAN_init dp gp) batches k
          ≠ discBranchAt env rng (DownscalingGAN_init dp gp) batches (k + 1))
    ∧ (0 < N → discBranchAt env rng (DownscalingGAN_init dp gp) batches 0 = true) := by
  refine ⟨?_, ?_, ?_, ?_, ?_⟩
  · intro k _
    rw [discBranchAt_init]
    simp
  · have he : (List.range N).filter (discBranchAt env rng (DownscalingGAN_init dp gp) batches)
        = (List.range N).filter (fun k => decide (k % 2 = 0)) :=
      List.filter_congr (fun k _ => discBranchAt_init env rng batches dp gp k)
    rw [he, length_filter_even_range]
  · have ho : (List.range N).filter
        (fun k => !discBranchAt env rng (DownscalingGAN_init dp gp) batches k)
        = (List.range N).filter (fun k => !decide (k % 2 = 0)) :=
      List.filter_congr (fun k _ => by rw [discBranchAt_init])
    rw [ho, length_filter_odd_range]
  · intro k _
    rw [discBranchAt_init, discBranchAt_init]
    simp only [ne_eq, decide_eq_decide]
    omega
  · intro _
    rw [discBranchAt_init]
    simp

/-- Concrete instantiation of C1 at `N = 5`: three of the first five calls run
the discriminator branch and the first call does. -/
theorem C1_branch_alternation_witness :
    ((List.range 5).filter
        (discBranchAt env0 rng0 (DownscalingGAN_init 0 0) batches0)).length = 3
    ∧ discBranchAt env0 rng0 (DownscalingGAN_init 0 0) batches0 0 = true :=
  ⟨(C1_branch_alternation env0 rng0 batches0 0 0 5).2.1,
   (C1_branch_alternation env0 rng0 batches0 0 0 5).2.2.2.2 (by decide)⟩

/-- C2: each `train_step` call leaves one network untouched: a
discriminator-branch call leaves the generator parameters unchanged, a
generator-branch call leaves the discriminator parameters unchanged (even
though the discriminator is invoked in that branch), so every call mutates
the parameters of at most the one selected network. -/
theorem C2_one_network_per_call (env : GanEnv) (rng : ℕ → ℚ) (s : GanState) (data : Batch) :
    (s.step_number % 2 = 0 → (trainStep env rng s data).1.genParams = s.genParams)
    ∧ (s.step_number % 2 ≠ 0 → (trainStep env rng s data).1.discParams = s.discParams)
    ∧ ((trainStep env rng s data).1.genParams = s.genParams
        ∨ (trainStep env rng s data).1.discParams = s.discParams) := by
  refine ⟨fun h => (trainStep_even_fields env rng s data h).1,
          fun h => (trainStep_odd_fields env rng s data h).1, ?_⟩
  by_cases h : s.step_number % 2 = 0
  · exact Or.inl (trainStep_even_fields env rng s data h).1
  · exact Or.inr (trainStep_odd_fields env rng s data h).1

/-- Concrete instantiation of C2: the first call of a fresh trainer (a
discriminator-branch call) leaves the generator parameters unchanged. -/
theorem C2_one_network_per_call_witness :
    (trainStep env0 rng0 (DownscalingGAN_init 0 0) batch0).1.genParams = 0 :=
  (C2_one_network_per_call env0 rng0 (DownscalingGAN_init 0 0) batch0).1 (by decide)

/-- C5: exactly one loss tracker is updated per call: on a
discriminator-branch call the discriminator tracker records the step's loss
and its count grows by one while the generator tracker's state and reported
mean are unchanged, and symmetrically on a generator-branch call. -/
theorem C5_tracker_frame (env : GanEnv) (rng : ℕ → ℚ) (s : GanState) (data : Batch) :
    (s.step_number % 2 = 0 →
      (trainStep env rng s data).1.discTotal = s.discTotal + callLoss env rng s data
      ∧ (trainStep env rng s data).1.discCount = s.discCount + 1
      ∧ (trainStep env rng s data).1.genTotal = s.genTotal
      ∧ (trainStep env rng s data).1.genCount = s.genCount
      ∧ meanResult (trainStep env rng s data).1.genTotal (trainStep env rng s data).1.genCount
          = meanResult s.genTotal s.genCount)
    ∧ (s.step_number % 2 ≠ 0 →
      (trainStep env rng s data).1.genTotal = s.genTotal + callLoss env rng s data
      ∧ (trainStep env rng s data).1.genCount = s.genCount + 1
      ∧ (trainStep env rng s data).1.discTotal = s.discTotal
      ∧ (trainStep env rng s data).1.discCount = s.discCount
      ∧ meanResult (trainStep env rng s data).1.discTotal
          (trainStep env rng s data).1.discCount
          = meanResult s.discTotal s.discCount) := by
  constructor
  · intro h
    obtain ⟨-, h2, h3, h4, h5, -⟩ := trainStep_even_fields env rng s data h
    exact ⟨h4, h5, h2, h3, by rw [h2, h3]⟩
  · intro h
    obtain ⟨-, h2, h3, h4, h5, -⟩ := trainStep_odd_fields env rng s data h
    exact ⟨h4, h5, h2, h3, by rw [h2, h3]⟩

/-- Concrete instantiation of C5: the first call of a fresh trainer updates
the discriminator tracker's count to 1. -/
theorem C5_tracker_frame_witness :
    (trainStep env0 rng0 (DownscalingGAN_init 0 0) batch0).1.discCount = 0 + 1 :=
  ((C5_tracker_frame env0 rng0 (DownscalingGAN_init 0 0) batch0).1 (by decide)).2.1

/-- C9: the loss computed by a `train_step` call is a deterministic function
of the network parameters, the step counter, the noise stream position and
shape, and the input batch: two trainer states agreeing on those (with the
same seeded stream) yield identical loss values for the same batch. -/
theorem C9_determinism (env : GanEnv) (rng : ℕ → ℚ) (data : Batch) (s1 s2 : GanState)
    (hd : s1.discParams = s2.discParams) (hg : s1.genParams = s2.genParams)
    (hstep : s1.step_number = s2.step_number) (hpos : s1.rngPos = s2.rngPos)
    (hshape : s1.noise_shape = s2.noise_shape) :
    callLoss env rng s1 data = callLoss env rng s2 data := by
  unfold callLoss d_loss_of g_loss_of
  rw [hd, hg, hstep, hpos, hshape]

/-- Concrete instantiation of C9: a state differing only in tracker totals
produces the same loss value as the fresh state. -/
theorem C9_determinism_witness :
    callLoss env0 rng0 { DownscalingGAN_init 0 0 with genTotal := 5, discCount := 7 } batch0
      = callLoss env0 rng0 (DownscalingGAN_init 0 0) batch0 :=
  C9_determinism env0 rng0 batch0 _ _ rfl rfl rfl rfl rfl

/-- C10: the first call of a fresh trainer runs the discriminator branch and
leaves the generator tracker with no recorded value; the returned
`"g_loss"` entry is exactly 0 (via `divide_no_nan`), and in general a fresh
tracker reports 0 before its first update. -/
theorem C10_first_call_g_loss_zero (env : GanEnv) (rng : ℕ → ℚ) (data : Batch) (dp gp : ℚ) :
    (DownscalingGAN_init dp gp).step_number % 2 = 0
    ∧ (trainStep env rng (DownscalingGAN_init dp gp) data).1.genCount = 0
    ∧ (trainStep env rng (DownscalingGAN_init dp gp) data).2.lookup "g_loss" = some 0
    ∧ meanResult (DownscalingGAN_init dp gp).genTotal (DownscalingGAN_init dp gp).genCount
        = 0 := by
  have h2 := (trainStep_even_fields env rng (DownscalingGAN_init dp gp) data rfl).2.2.1
  refine ⟨rfl, h2.trans rfl, ?_, rfl⟩
  rw [trainStep_snd]
  have h3 : meanResult (trainStep env rng (DownscalingGAN_init dp gp) data).1.genTotal
      (trainStep env rng (DownscalingGAN_init dp gp) data).1.genCount = 0 := by
    rw [h2]
    simp [meanResult, DownscalingGAN_init]
  simp [List.lookup, h3]

/-- C3: in a discriminator-branch call with both batch arrays of length `B`
and a batch-preserving generator, the combined high-resolution batch is the
`B` fake samples followed by the `B` real samples (length `2B`), the
conditioning batch is the low-resolution batch duplicated once per half,
the label vector has length `2B` with label 1 on every element of the fake
half and label 0 on every element of the real half, and the loss recorded
by the call is the compiled loss evaluated on exactly these arrays. -/
theorem C3_disc_batch_construction (env : GanEnv) (rng : ℕ → ℚ) (s : GanState)
    (data : Batch) (B : ℕ)
    (hhr : data.samples_hr.length = B) (hlr : data.samples_lr.length = B)
    (hgen : ∀ p lr nz, (env.generator p lr nz).length = lr.length)
    (h : s.step_number % 2 = 0) :
    (combined_samples_hr
        (env.generator s.genParams data.samples_lr
          (tf_random_normal rng s.rngPos B s.noise_shape)) data.samples_hr).length = 2 * B
    ∧ (combined_samples_hr
        (env.generator s.genParams data.samples_lr
          (tf_random_normal rng s.rngPos B s.noise_shape)) data.samples_hr).take B
        = env.generator s.genParams data.samples_lr
            (tf_random_normal rng s.rngPos B s.noise_shape)
    ∧ (combined_samples_hr
        (env.generator s.genParams data.samples_lr
          (tf_random_normal rng s.rngPos B s.noise_shape)) data.samples_hr).drop B
        = data.samples_hr
    ∧ (combined_samples_lr data.samples_lr).take B = data.samples_lr
    ∧ (combined_samples_lr data.samples_lr).drop B = data.samples_lr
    ∧ (disc_labels B).length = 2 * B
    ∧ (∀ x ∈ (disc_labels B).take B, x = 1)
    ∧ (∀ x ∈ (disc_labels B).drop B, x = 0)
    ∧ (trainStep env rng s data).1.discTotal
        = s.discTotal
          + env.loss_fn (disc_labels B)
              (env.discriminator s.discParams (combined_samples_lr data.samples_lr)
                (combined_samples_hr
                  (env.generator s.genParams data.samples_lr
                    (tf_random_normal rng s.rngPos B s.noise_shape)) data.samples_hr)) := by
  have hfl : (env.generator s.genParams data.samples_lr
      (tf_random_normal rng s.rngPos B s.noise_shape)).length = B :=
    (hgen _ _ _).trans hlr
  refine ⟨?_, ?_, ?_, ?_, ?_, ?_, ?_, ?_, ?_⟩
  · simp [combined_samples_hr, hfl, hhr, two_mul]
  · exact List.take_left' hfl
  · exact List.drop_left' hfl
  · exact List.take_left' hlr
  · exact List.drop_left' hlr
  · simp [disc_labels, two_mul]
  · intro x hx
    rw [disc_labels, List.take_left' (List.length_replicate B 1)] at hx
    exact List.eq_of_mem_replicate hx
  · intro x hx
    rw [disc_labels, List.drop_left' (List.length_replicate B 1)] at hx
    exact List.eq_of_mem_replicate hx
  · rw [(trainStep_even_fields env rng s data h).2.2.2.1, callLoss_even env rng s data h]
    simp only [d_loss_of]
    rw [hhr]

/-- Concrete instantiation of C3 at batch size 1: the label vector has
length 2. -/
theorem C3_disc_batch_construction_witness : (disc_labels 1).length = 2 * 1 :=
  (C3_disc_batch_construction env0 rng0 (DownscalingGAN_init 0 0) batch0 1 rfl rfl
    (fun _ _ _ => rfl) (by decide)).2.2.2.2.2.1

/-- C4: in a generator-branch call with batch size `B`, the misleading label
vector is `B` zeros, the loss recorded into the generator tracker is the
compiled loss between the discriminator predictions on the (low-res, fresh
fake) pairs and these all-zero labels, the optimizer update built from the
gradient with respect to the generator parameters is applied to the
generator parameters, and the discriminator parameters are unchanged. -/
theorem C4_gen_branch_loss (env : GanEnv) (rng : ℕ → ℚ) (s : GanState) (data : Batch)
    (B : ℕ) (hhr : data.samples_hr.length = B) (h : ¬ s.step_number % 2 = 0) :
    (misleading_labels B).length = B
    ∧ (∀ x ∈ misleading_labels B, x = 0)
    ∧ (trainStep env rng s data).1.genTotal
        = s.genTotal
          + env.loss_fn (misleading_labels B)
              (env.discriminator s.discParams data.samples_lr
                (env.generator s.genParams data.samples_lr
                  (tf_random_normal rng s.rngPos B s.noise_shape)))
    ∧ (trainStep env rng s data).1.genParams
        = env.g_apply (env.g_grad (callLoss env rng s data) s.genParams) s.genParams
    ∧ (trainStep env rng s data).1.discParams = s.discParams := by
  refine ⟨by simp [misleading_labels], fun x hx => List.eq_of_mem_replicate hx, ?_,
    (trainStep_odd_fields env rng s data h).2.2.2.2.2,
    (trainStep_odd_fields env rng s data h).1⟩
  rw [(trainStep_odd_fields env rng s data h).2.2.2.1, callLoss_odd env rng s data h]
  simp only [g_loss_of]
  rw [hhr]

/-- Concrete instantiation of C4 at batch size 1 on a step-1 state: the
misleading label vector has length 1. -/
theorem C4_gen_branch_loss_witness : (misleading_labels 1).length = 1 :=
  (C4_gen_branch_loss env0 rng0 { DownscalingGAN_init 0 0 with step_number := 1 } batch0 1
    rfl (by decide)).1

/-- C6: after any number of `train_step` calls from a freshly constructed
trainer, each `Mean` tracker holds exactly the sum and count of every loss
value recorded for its network since construction (no reset, no windowing),
and once at least one value has been recorded its reported result is the
arithmetic mean of all of them. -/
theorem C6_running_mean (env : GanEnv) (rng : ℕ → ℚ) (batches : ℕ → Batch)
    (dp gp : ℚ) (n : ℕ) :
    (runSteps env rng (DownscalingGAN_init dp gp) batches n).genTotal
      = (genRecorded env rng (DownscalingGAN_init dp gp) batches n).sum
    ∧ (runSteps env rng (DownscalingGAN_init dp gp) batches n).genCount
      = (genRecorded env rng (DownscalingGAN_init dp gp) batches n).length
    ∧ (runSteps env rng (DownscalingGAN_init dp gp) batches n).discTotal
      = (discRecorded env rng (DownscalingGAN_init dp gp) batches n).sum
    ∧ (runSteps env rng (DownscalingGAN_init dp gp) batches n).discCount
      = (discRecorded env rng (DownscalingGAN_init dp gp) batches n).length
    ∧ (genRecorded env rng (DownscalingGAN_init dp gp) batches n ≠ [] →
        meanResult (runSteps env rng (DownscalingGAN_init dp gp) batches n).genTotal
            (runSteps env rng (DownscalingGAN_init dp gp) batches n).genCount
          = (genRecorded env rng (DownscalingGAN_init dp gp) batches n).sum
            / ((genRecorded env rng (DownscalingGAN_init dp gp) batches n).length : ℚ))
    ∧ (discRecorded env rng (DownscalingGAN_init dp gp) batches n ≠ [] →
        meanResult (runSteps env rng (DownscalingGAN_init dp gp) batches n).discTotal
            (runSteps env rng (DownscalingGAN_init dp gp) batches n).discCount
          = (discRecorded env rng (DownscalingGAN_init dp gp) batches n).sum
            / ((discRecorded env rng (DownscalingGAN_init dp gp) batches n).length : ℚ)) := by
  obtain ⟨hg1, hg2⟩ := runSteps_genTracker env rng batches dp gp n
  obtain ⟨hd1, hd2⟩ := runSteps_discTracker env rng batches dp gp n
  refine ⟨hg1, hg2, hd1, hd2, ?_, ?_⟩
  · intro hne
    rw [hg1, hg2, meanResult, if_neg (by simpa [List.length_eq_zero] using hne)]
  · intro hne
    rw [hd1, hd2, meanResult, if_neg (by simpa [List.length_eq_zero] using hne)]

/-- Concrete instantiation of C6 after two calls: the generator tracker's
reported value is the mean of the values recorded for it. -/
theorem C6_running_mean_witness :
    meanResult (runSteps env0 rng0 (DownscalingGAN_init 0 0) batches0 2).genTotal
        (runSteps env0 rng0 (DownscalingGAN_init 0 0) batches0 2).genCount
      = (genRecorded env0 rng0 (DownscalingGAN_init 0 0) batches0 2).sum
        / ((genRecorded env0 rng0 (DownscalingGAN_init 0 0) batches0 2).length : ℚ) :=
  (C6_running_mean env0 rng0 batches0 0 0 2).2.2.2.2.1 (by decide)

/-- C7 as stated is false: the mapping returned by `train_step` has keys
`"g_loss"` and `"d_loss"`, not `"generator_loss"` and
`"discriminator_loss"`; at a concrete first call the claimed keys are
absent from the returned mapping. -/
theorem C7_keys_counterexample :
    (trainStep env0 rng0 (DownscalingGAN_init 0 0) batch0).2.map Prod.fst
        = ["g_loss", "d_loss"]
    ∧ (trainStep env0 rng0 (DownscalingGAN_init 0 0) batch0).2.lookup "generator_loss"
        = none
    ∧ (trainStep env0 rng0 (DownscalingGAN_init 0 0) batch0).2.lookup "discriminator_loss"
        = none := by
  refine ⟨?_, ?_, ?_⟩ <;> rw [trainStep_snd] <;> rfl

/-- C7 amended: every `train_step` call returns a mapping with keys
`"g_loss"` and `"d_loss"` (in that order) whose values are the running
means reported by the generator and discriminator loss trackers after the
call, for every input batch and on every call from the first onward. -/
theorem C7_result_mapping (env : GanEnv) (rng : ℕ → ℚ) (s : GanState) (data : Batch) :
    (trainStep env rng s data).2.map Prod.fst = ["g_loss", "d_loss"]
    ∧ (trainStep env rng s data).2.lookup "g_loss"
        = some (meanResult (trainStep env rng s data).1.genTotal
            (trainStep env rng s data).1.genCount)
    ∧ (trainStep env rng s data).2.lookup "d_loss"
        = some (meanResult (trainStep env rng s data).1.discTotal
            (trainStep env rng s data).1.discCount) := by
  refine ⟨?_, ?_, ?_⟩ <;> rw [trainStep_snd] <;> rfl

/-- C8: with the constructed noise shape `(4, 4, 8)`, the noise tensor of a
call with batch size `B` has shape `(B, 4, 4, 8)`; it is drawn from the
stream position of the current call regardless of which branch runs (the
branch that runs consumes it in its loss), and the stream position advances
by `B * 128` on every call, so the next call draws entirely fresh values
and no noise is carried in the trainer state. -/
theorem C8_noise_shape_freshness (env : GanEnv) (rng : ℕ → ℚ) (s : GanState)
    (data : Batch) (B : ℕ)
    (hhr : data.samples_hr.length = B) (hshape : s.noise_shape = (4, 4, 8)) :
    (tf_random_normal rng s.rngPos B s.noise_shape).length = B
    ∧ (∀ x ∈ tf_random_normal rng s.rngPos B s.noise_shape,
        x.length = 4 ∧ ∀ r ∈ x, r.length = 4 ∧ ∀ v ∈ r, v.length = 8)
    ∧ (trainStep env rng s data).1.rngPos = s.rngPos + B * 128
    ∧ (s.step_number % 2 = 0 →
        (trainStep env rng s data).1.discTotal
          = s.discTotal
            + d_loss_of env (tf_random_normal rng s.rngPos B s.noise_shape) s data)
    ∧ (¬ s.step_number % 2 = 0 →
        (trainStep env rng s data).1.genTotal
          = s.genTotal
            + g_loss_of env (tf_random_normal rng s.rngPos B s.noise_shape) s data) := by
  refine ⟨?_, ?_, ?_, ?_, ?_⟩
  · rw [hshape]
    simp [tf_random_normal]
  · intro x hx
    rw [hshape] at hx
    simp only [tf_random_normal, List.mem_map, List.mem_range] at hx
    obtain ⟨nn, -, rfl⟩ := hx
    refine ⟨by simp, ?_⟩
    intro r hr
    simp only [List.mem_map, List.mem_range] at hr
    obtain ⟨i, -, rfl⟩ := hr
    refine ⟨by simp, ?_⟩
    intro v hv
    simp only [List.mem_map, List.mem_range] at hv
    obtain ⟨j, -, rfl⟩ := hv
    simp
  · rw [trainStep_rngPos, hhr, hshape]
    rfl
  · intro h
    rw [(trainStep_even_fields env rng s data h).2.2.2.1, callLoss_even env rng s data h,
      hhr]
  · intro h
    rw [(trainStep_odd_fields env rng s data h).2.2.2.1, callLoss_odd env rng s data h,
      hhr]

/-- Concrete instantiation of C8 at batch size 1: the noise batch has one
sample and the stream advances by 128 values. -/
theorem C8_noise_shape_freshness_witness :
    (tf_random_normal rng0 (DownscalingGAN_init 0 0).rngPos 1
        (DownscalingGAN_init 0 0).noise_shape).length = 1
    ∧ (trainStep env0 rng0 (DownscalingGAN_init 0 0) batch0).1.rngPos = 0 + 1 * 128 :=
  ⟨(C8_noise_shape_freshness env0 rng0 (DownscalingGAN_init 0 0) batch0 1 rfl rfl).1,
   (C8_noise_shape_freshness env0 rng0 (DownscalingGAN_init 0 0) batch0 1 rfl rfl).2.2.1⟩
